import Mathlib

/-!
Shallow embedding of the frame-to-halftone renderer from
src/components/Halftone404Canvas.tsx, together with theorems settling the
frozen claims about it.

The renderer's per-frame work is a pure function of the current video state,
the canvas dimensions and the pixel buffer read back from the canvas; the
surrounding lifecycle (mount effect, autoplay retry, unmount cleanup) is a
small event-driven state machine.  Both are embedded below directly from the
source.
-/

namespace Halftone

/-- Dot spacing constant from the source: `const grid = 4`. -/
def grid : ℕ := 4

/-- Flat RGBA channel index of pixel (x, y) in a row-major buffer of the given
width, as computed by the source: `const i = (y * canvas.width + x) * 4`. -/
def pixIndex (width x y : ℕ) : ℕ := (y * width + x) * 4

/-- Structural companion of the JS loop `for (v = start; v < limit; v += g)`:
`fuel` bounds the number of iterations (the wrapper below supplies enough). -/
def strideAux (g : ℕ) : ℕ → ℕ → ℕ → List ℕ
  | 0, _, _ => []
  | fuel + 1, start, limit =>
    if start < limit then start :: strideAux g fuel (start + g) limit else []

/-- The values visited by the JS loop `for (v = start; v < limit; v += g)`
(for a positive step `g`). -/
def strideFrom (g start limit : ℕ) : List ℕ :=
  strideAux g (limit - start) start limit

/-- One rendered halftone dot: centre coordinates and radius. -/
structure Dot where
  x : ℕ
  y : ℕ
  r : ℚ
deriving DecidableEq

/-- The average-luminance-to-radius map used in the source:
`const r = (1 - avg / 255) * (grid / 2.5)`. -/
def dotRadius (g : ℚ) (avg : ℚ) : ℚ := (1 - avg / 255) * (g / 2.5)

/-- The average luminance the source computes for the cell with top-left
sample point (x, y): `const avg = (data[i] + data[i + 1] + data[i + 2]) / 3`. -/
def avgLuminance (data : ℕ → ℕ) (width x y : ℕ) : ℚ :=
  ((data (pixIndex width x y) : ℚ) + (data (pixIndex width x y + 1) : ℚ)
    + (data (pixIndex width x y + 2) : ℚ)) / 3

/-- The body of the per-cell loop: sample the top-left pixel, compute the
radius, and emit a dot exactly when `r > 0.5` (source lines 92-100). -/
def cellDot (g : ℕ) (data : ℕ → ℕ) (width x y : ℕ) : Option Dot :=
  let avg := avgLuminance data width x y
  let r := dotRadius g avg
  if r > 0.5 then some ⟨x, y, r⟩ else none

/-- The pixel buffer read back from the canvas (`ctx.getImageData`): its
dimensions and a flat channel-value map. -/
structure ImageData where
  width : ℕ
  height : ℕ
  data : ℕ → ℕ

/-- The candidate sample points visited by the nested sampling loops:
y runs over stride points of the height, x over stride points of the width. -/
def samplePoints (g width height : ℕ) : List (ℕ × ℕ) :=
  (strideFrom g 0 height).flatMap fun y =>
    (strideFrom g 0 width).map fun x => (x, y)

/-- The full dot pass of `draw`: the nested loops over y and x at stride `g`,
collecting the dots that pass the visibility threshold. -/
def drawDots (g : ℕ) (img : ImageData) : List Dot :=
  (strideFrom g 0 img.height).flatMap fun y =>
    (strideFrom g 0 img.width).filterMap fun x => cellDot g img.data img.width x y

/-- The platform state of the hidden video element, as the draw loop can
observe it.  `attached` is whether `videoRef.current` is still set (the
cleanup nulls it and removes the element); `producingFrames` is whether the
element currently has decoded frame data available (the platform readiness
state — the source never reads it, but the claims quantify over it). -/
structure VideoState where
  attached : Bool
  paused : Bool
  ended : Bool
  videoWidth : ℕ
  videoHeight : ℕ
  producingFrames : Bool
deriving DecidableEq

/-- Pixel dimensions of the canvas render target. -/
structure CanvasDims where
  width : ℕ
  height : ℕ
deriving DecidableEq

/-- `sizeToVideo` from the source: copy the video's intrinsic dimensions onto
the canvas, but only when both are truthy (nonzero):
`if (v.videoWidth && v.videoHeight) { canvas.width = ...; canvas.height = ... }`. -/
def sizeToVideo (v : VideoState) (c : CanvasDims) : CanvasDims :=
  if v.videoWidth ≠ 0 ∧ v.videoHeight ≠ 0 then ⟨v.videoWidth, v.videoHeight⟩ else c

/-- Outcome of one invocation of `draw`: the canvas dimensions afterwards,
whether the tick sampled the video (drawImage + getImageData + dot pass),
the dots it drew, and whether it re-armed the callback chain
(`requestVideoFrameCallback` or `requestAnimationFrame`). -/
structure TickResult where
  canvas : CanvasDims
  sampled : Bool
  dots : List Dot
  rescheduled : Bool
deriving DecidableEq

/-- One invocation of `draw` from the source.  The guard
`if (!videoRef.current || v.paused || v.ended)` reschedules and returns;
otherwise the canvas is resized on mismatch via `sizeToVideo`, the frame is
sampled and the dot pass runs over the (possibly resized) canvas.  `frame` is
the channel buffer `getImageData` returns for the current video frame.
Every path ends by re-arming the callback chain, so `rescheduled` is always
true. -/
def drawTick (v : VideoState) (c : CanvasDims) (frame : ℕ → ℕ) : TickResult :=
  if !v.attached || v.paused || v.ended then
    { canvas := c, sampled := false, dots := [], rescheduled := true }
  else
    let c1 := if c.width ≠ v.videoWidth ∨ c.height ≠ v.videoHeight then sizeToVideo v c else c
    { canvas := c1, sampled := true,
      dots := drawDots grid ⟨c1.width, c1.height, frame⟩, rescheduled := true }

/-- Which platform-level listeners/timers the mounted component currently has
registered.  `heartbeat` is the iOS liveness interval, `visListener` the
`onVis` visibilitychange handler, `metaListeners` the loadedmetadata and
loadeddata handlers on the video, and `retryListeners` the autoplay-retry
handlers (`kick` on pointerdown/keydown/wheel/touchstart plus `onVisibleTry`
on visibilitychange), which are attached only after a blocked autoplay. -/
structure ListenerSet where
  heartbeat : Bool
  visListener : Bool
  metaListeners : Bool
  retryListeners : Bool
deriving DecidableEq

/-- The mounted component's externally visible resources. -/
structure ComponentState where
  video : VideoState
  listeners : ListenerSet
deriving DecidableEq

/-- The effect cleanup from the source (unmount): clear the heartbeat
interval, remove `onVis`, remove the metadata listeners, pause the video,
reset its source and detach it, and null `videoRef.current`.  The cleanup
closure never references `kick`, `onVisibleTry` or `detach` (they are local
to the `attemptPlay().then` callback), so `retryListeners` is left as is. -/
def cleanupEffect (s : ComponentState) : ComponentState :=
  { video := { s.video with paused := true, attached := false },
    listeners := { s.listeners with
                   heartbeat := false, visListener := false, metaListeners := false } }

/-- Observable outcome of running the mount effect once. -/
structure MountOutcome where
  ready : Bool
  videoCreated : Bool
  loopStarted : Bool
  drawCalls : ℕ
  retryListeners : Bool
deriving DecidableEq

/-- The mount effect from the source.  `prefersReduced` short-circuits:
`setReady(true); return;` before any video element or listener exists.
Otherwise a hidden video is created and `attemptPlay` runs: on success it
sets ready and issues the first `drawRef.current()` call (starting the loop);
on rejection it leaves ready false and attaches the retry listeners. -/
def mountEffect (prefersReduced autoplayOk : Bool) : MountOutcome :=
  if prefersReduced then
    { ready := true, videoCreated := false, loopStarted := false,
      drawCalls := 0, retryListeners := false }
  else if autoplayOk then
    { ready := true, videoCreated := true, loopStarted := true,
      drawCalls := 1, retryListeners := false }
  else
    { ready := false, videoCreated := true, loopStarted := false,
      drawCalls := 0, retryListeners := true }

/-- Events that can reach the autoplay-retry listeners. -/
inductive UserEvent where
  | pointerdown
  | keydown
  | wheel
  | touchstart
  | visibilitychange (visible : Bool)
deriving DecidableEq

/-- State of the autoplay-retry machinery: whether the retry listeners are
attached, how many play attempts have been made, and whether playback has
started. -/
structure RetryState where
  listeners : Bool
  attempts : ℕ
  playing : Bool
deriving DecidableEq

/-- One call of `attemptPlay` followed by `detach()` on success, as `kick`
and `onVisibleTry` do.  `outcome n` is whether the (n+1)-th play attempt
resolves (n counts previous attempts). -/
def kickPlay (outcome : ℕ → Bool) (s : RetryState) : RetryState :=
  if outcome s.attempts then
    { listeners := false, attempts := s.attempts + 1, playing := true }
  else
    { s with attempts := s.attempts + 1 }

/-- State after the initial `attemptPlay().then(...)`: one attempt has been
made; on rejection the retry listeners are attached, on success they never
exist. -/
def initRetry (outcome : ℕ → Bool) : RetryState :=
  if outcome 0 then { listeners := false, attempts := 1, playing := true }
  else { listeners := true, attempts := 1, playing := false }

/-- Dispatch of one event to the retry listeners.  While attached, any of the
four interaction events runs `kick`; a visibilitychange runs `onVisibleTry`,
which retries only when the document became visible.  Once detached, the
handlers are gone and events do nothing. -/
def handleRetryEvent (outcome : ℕ → Bool) (s : RetryState) (e : UserEvent) : RetryState :=
  if s.listeners then
    match e with
    | .visibilitychange visible => if visible then kickPlay outcome s else s
    | _ => kickPlay outcome s
  else s

/-! ### Basic lemmas about the stride loop and the dot pass -/

lemma lt_of_mem_strideAux {g : ℕ} :
    ∀ {fuel start limit a : ℕ}, a ∈ strideAux g fuel start limit → a < limit := by
  intro fuel
  induction fuel with
  | zero => intro start limit a h; simp [strideAux] at h
  | succ n ih =>
    intro start limit a h
    simp only [strideAux] at h
    split at h
    · rcases List.mem_cons.mp h with h1 | h2
      · subst h1; assumption
      · exact ih h2
    · simp at h

lemma lt_of_mem_strideFrom {g start limit a : ℕ}
    (h : a ∈ strideFrom g start limit) : a < limit :=
  lt_of_mem_strideAux h

lemma mem_strideAux {g : ℕ} (hg : 0 < g) :
    ∀ {fuel start limit a : ℕ}, limit - start ≤ fuel →
      (a ∈ strideAux g fuel start limit ↔ ∃ k, a = start + g * k ∧ a < limit) := by
  intro fuel
  induction fuel with
  | zero =>
    intro start limit a hfuel
    simp only [strideAux, List.not_mem_nil, false_iff]
    rintro ⟨k, hk, hlt⟩
    omega
  | succ n ih =>
    intro start limit a hfuel
    simp only [strideAux]
    split
    · rename_i hlt
      rw [List.mem_cons, ih (by omega)]
      constructor
      · rintro (rfl | ⟨k, hk, hka⟩)
        · exact ⟨0, by omega, hlt⟩
        · exact ⟨k + 1, by rw [Nat.mul_succ]; omega, hka⟩
      · rintro ⟨k, hk, hka⟩
        cases k with
        | zero => left; omega
        | succ m => right; exact ⟨m, by rw [Nat.mul_succ] at hk; omega, hka⟩
    · rename_i hge
      simp only [List.not_mem_nil, false_iff]
      rintro ⟨k, hk, hka⟩
      omega

lemma mem_strideFrom {g start limit a : ℕ} (hg : 0 < g) :
    a ∈ strideFrom g start limit ↔ ∃ k, a = start + g * k ∧ a < limit :=
  mem_strideAux hg (Nat.le_refl _)

lemma cellDot_eq_some {g : ℕ} {data : ℕ → ℕ} {width x y : ℕ} {d : Dot} :
    cellDot g data width x y = some d ↔
      0.5 < dotRadius g (avgLuminance data width x y) ∧
        d = ⟨x, y, dotRadius g (avgLuminance data width x y)⟩ := by
  by_cases h : 0.5 < dotRadius g (avgLuminance data width x y)
  · simp [cellDot, h, eq_comm]
  · simp [cellDot, h]

lemma cellDot_eq_none {g : ℕ} {data : ℕ → ℕ} {width x y : ℕ} :
    cellDot g data width x y = none ↔
      ¬ 0.5 < dotRadius g (avgLuminance data width x y) := by
  by_cases h : 0.5 < dotRadius g (avgLuminance data width x y)
  · simp [cellDot, h]
  · simp [cellDot, h]

lemma mem_drawDots {g : ℕ} {img : ImageData} {d : Dot} :
    d ∈ drawDots g img ↔
      ∃ y ∈ strideFrom g 0 img.height, ∃ x ∈ strideFrom g 0 img.width,
        cellDot g img.data img.width x y = some d := by
  simp [drawDots, List.mem_flatMap, List.mem_filterMap]

/-- The dot pass is the per-cell step run over exactly the candidate sample
points of the stride loops. -/
lemma drawDots_eq_filterMap_samplePoints (g : ℕ) (img : ImageData) :
    drawDots g img = (samplePoints g img.width img.height).filterMap
      fun p => cellDot g img.data img.width p.1 p.2 := by
  unfold drawDots samplePoints
  rw [List.filterMap_flatMap]
  congr 1
  funext y
  rw [List.filterMap_map]
  rfl

/-! ### Claim theorems -/

/-- Claim C1: in every draw pass with grid stride 4, for each cell visited by
the stride loops, every dot drawn at the cell's top-left sample point has
radius (1 - avg/255) * (4/2.5), where avg is the arithmetic mean of the
sampled pixel's red, green and blue channel values, and a dot is drawn at
that sample point iff this radius strictly exceeds the 0.5 visibility
threshold (otherwise the cell produces no dot). -/
theorem halftone_cell_draw_characterization (img : ImageData) (x y : ℕ)
    (hx : x ∈ strideFrom 4 0 img.width) (hy : y ∈ strideFrom 4 0 img.height) :
    (∀ d ∈ drawDots 4 img, d.x = x → d.y = y →
        d.r = dotRadius 4 (avgLuminance img.data img.width x y)) ∧
    ((∃ d ∈ drawDots 4 img, d.x = x ∧ d.y = y) ↔
        0.5 < dotRadius 4 (avgLuminance img.data img.width x y)) := by
  have hcast : ((4 : ℕ) : ℚ) = (4 : ℚ) := by norm_num
  constructor
  · intro d hd hdx hdy
    rcases mem_drawDots.mp hd with ⟨y', _, x', _, hcell⟩
    rcases cellDot_eq_some.mp hcell with ⟨_, rfl⟩
    simp only at hdx hdy
    subst hdx; subst hdy
    simp [hcast]
  · constructor
    · rintro ⟨d, hd, hdx, hdy⟩
      rcases mem_drawDots.mp hd with ⟨y', _, x', _, hcell⟩
      rcases cellDot_eq_some.mp hcell with ⟨hr, rfl⟩
      simp only at hdx hdy
      subst hdx; subst hdy
      rwa [hcast] at hr
    · intro hr
      refine ⟨⟨x, y, dotRadius 4 (avgLuminance img.data img.width x y)⟩, ?_, rfl, rfl⟩
      exact mem_drawDots.mpr
        ⟨y, hy, x, hx, cellDot_eq_some.mpr ⟨by rwa [hcast], by rw [hcast]⟩⟩

/-- Witness for C1 at a concrete image: an 8×8 all-black buffer, cell (4, 0). -/
theorem halftone_cell_draw_characterization_witness :
    (4 ∈ strideFrom 4 0 8) ∧ (0 ∈ strideFrom 4 0 8) ∧
    ((∃ d ∈ drawDots 4 ⟨8, 8, fun _ => 0⟩, d.x = 4 ∧ d.y = 0) ↔
        0.5 < dotRadius 4 (avgLuminance (fun _ => 0) 8 4 0)) :=
  ⟨by decide, by decide,
   (halftone_cell_draw_characterization ⟨8, 8, fun _ => 0⟩ 4 0 (by decide) (by decide)).2⟩

/-- Claim C7: a solid-black sample pixel (all channels 0) yields radius
exactly g/2.5, which strictly exceeds the 0.5 threshold for every integer
g ≥ 2, so the cell draws a dot at full radius; a solid-white sample pixel
(all channels 255) yields radius exactly 0, so no dot is drawn. -/
theorem radius_extremes_black_white (g : ℕ) (hg : 2 ≤ g)
    (dblack dwhite : ℕ → ℕ) (width x y : ℕ)
    (hb0 : dblack (pixIndex width x y) = 0)
    (hb1 : dblack (pixIndex width x y + 1) = 0)
    (hb2 : dblack (pixIndex width x y + 2) = 0)
    (hw0 : dwhite (pixIndex width x y) = 255)
    (hw1 : dwhite (pixIndex width x y + 1) = 255)
    (hw2 : dwhite (pixIndex width x y + 2) = 255) :
    dotRadius g (avgLuminance dblack width x y) = (g : ℚ) / 2.5 ∧
    (0.5 : ℚ) < (g : ℚ) / 2.5 ∧
    cellDot g dblack width x y = some ⟨x, y, (g : ℚ) / 2.5⟩ ∧
    dotRadius g (avgLuminance dwhite width x y) = 0 ∧
    cellDot g dwhite width x y = none := by
  have hgq : (2 : ℚ) ≤ (g : ℚ) := by exact_mod_cast hg
  have havgb : avgLuminance dblack width x y = 0 := by
    simp [avgLuminance, hb0, hb1, hb2]
  have havgw : avgLuminance dwhite width x y = 255 := by
    simp [avgLuminance, hw0, hw1, hw2]
    norm_num
  have hrb : dotRadius g (avgLuminance dblack width x y) = (g : ℚ) / 2.5 := by
    rw [havgb]; unfold dotRadius; ring
  have hrw : dotRadius g (avgLuminance dwhite width x y) = 0 := by
    rw [havgw]; unfold dotRadius; norm_num
  have hthr : (0.5 : ℚ) < (g : ℚ) / 2.5 := by
    rw [lt_div_iff₀ (by norm_num : (0 : ℚ) < 2.5)]
    linarith
  refine ⟨hrb, hthr, ?_, hrw, ?_⟩
  · exact cellDot_eq_some.mpr ⟨by rw [hrb]; exact hthr, by rw [hrb]⟩
  · exact cellDot_eq_none.mpr (by rw [hrw]; norm_num)

/-- Witness for C7 at g = 2 with constant black and white buffers. -/
theorem radius_extremes_black_white_witness :
    2 ≤ 2 ∧ cellDot 2 (fun _ => 0) 1 0 0 = some ⟨0, 0, ((2 : ℕ) : ℚ) / 2.5⟩ ∧
      cellDot 2 (fun _ => 255) 1 0 0 = none :=
  ⟨le_refl 2,
   (radius_extremes_black_white 2 (le_refl 2) (fun _ => 0) (fun _ => 255) 1 0 0
      rfl rfl rfl rfl rfl rfl).2.2.1,
   (radius_extremes_black_white 2 (le_refl 2) (fun _ => 0) (fun _ => 255) 1 0 0
      rfl rfl rfl rfl rfl rfl).2.2.2.2⟩

/-- Claim C8: with stride 4 the sampling loops over a 16×16-pixel region
visit exactly 16 candidate sample points, the 4×4 grid whose x and y
coordinates each take the values 0, 4, 8, 12. -/
theorem grid16_sample_points :
    strideFrom 4 0 16 = [0, 4, 8, 12] ∧
    (samplePoints 4 16 16).length = 16 := by decide

/-- Claim C9: every channel index the sampling loop computes — pixIndex for a
stride point x of the width and a stride point y of the height — satisfies
i + 2 < 4 * width * height, so the three channel reads stay inside a buffer
of length 4 * width * height. -/
theorem sample_index_in_bounds (g width height x y : ℕ)
    (hx : x ∈ strideFrom g 0 width) (hy : y ∈ strideFrom g 0 height) :
    pixIndex width x y + 2 < 4 * width * height := by
  have hxw : x < width := lt_of_mem_strideFrom hx
  have hyh : y < height := lt_of_mem_strideFrom hy
  have h1 : y * width + x + 1 ≤ height * width := by
    have h2 : y * width + x + 1 ≤ (y + 1) * width := by
      rw [Nat.succ_mul]; omega
    have h3 : (y + 1) * width ≤ height * width :=
      Nat.mul_le_mul_right width hyh
    omega
  unfold pixIndex
  calc (y * width + x) * 4 + 2 < (y * width + x + 1) * 4 := by omega
    _ ≤ height * width * 4 := Nat.mul_le_mul_right 4 h1
    _ = 4 * width * height := by ring

/-- Witness for C9 at g = 4, an 8×8 buffer, sample point (4, 4). -/
theorem sample_index_in_bounds_witness :
    (4 ∈ strideFrom 4 0 8) ∧ pixIndex 8 4 4 + 2 < 4 * 8 * 8 :=
  ⟨by decide, sample_index_in_bounds 4 8 8 4 4 (by decide) (by decide)⟩

/-- Claim C10: the radius map avg ↦ (1 - avg/255) * (g/2.5) is antitone on
[0, 255], and on that interval its value always lies in [0, g/2.5]; hence a
darker sample pixel never gets a smaller dot than a brighter one and no dot
exceeds radius g/2.5. -/
theorem dotRadius_antitone_and_bounded (g : ℕ) :
    (∀ a1 a2 : ℚ, 0 ≤ a1 → a1 ≤ a2 → a2 ≤ 255 → dotRadius g a2 ≤ dotRadius g a1) ∧
    (∀ a : ℚ, 0 ≤ a → a ≤ 255 → 0 ≤ dotRadius g a ∧ dotRadius g a ≤ (g : ℚ) / 2.5) := by
  have hg : (0 : ℚ) ≤ (g : ℚ) := Nat.cast_nonneg g
  have hq : (0 : ℚ) ≤ (g : ℚ) / 2.5 := by
    apply div_nonneg hg; norm_num
  constructor
  · intro a1 a2 _ h12 _
    unfold dotRadius
    apply mul_le_mul_of_nonneg_right _ hq
    have : a1 / 255 ≤ a2 / 255 := by
      apply div_le_div_of_nonneg_right h12
      norm_num
    linarith
  · intro a ha h255
    unfold dotRadius
    constructor
    · apply mul_nonneg _ hq
      have : a / 255 ≤ 1 := by
        rw [div_le_one (by norm_num : (0 : ℚ) < 255)]; exact h255
      linarith
    · have h1 : 1 - a / 255 ≤ 1 := by
        have : 0 ≤ a / 255 := by positivity
        linarith
      calc (1 - a / 255) * ((g : ℚ) / 2.5) ≤ 1 * ((g : ℚ) / 2.5) :=
            mul_le_mul_of_nonneg_right h1 hq
        _ = (g : ℚ) / 2.5 := by ring

/-- Witness for C10 at g = 4 and concrete average luminances 10 ≤ 20. -/
theorem dotRadius_antitone_and_bounded_witness :
    (0 : ℚ) ≤ 10 ∧ (10 : ℚ) ≤ 20 ∧ (20 : ℚ) ≤ 255 ∧
      dotRadius ((4 : ℕ) : ℚ) 20 ≤ dotRadius ((4 : ℕ) : ℚ) 10 :=
  ⟨by norm_num, by norm_num, by norm_num,
   (dotRadius_antitone_and_bounded 4).1 10 20 (by norm_num) (by norm_num) (by norm_num)⟩

/-- Claim C2 counterexample: with intrinsic video dimensions reported as 0×0
(as a video element reports before its metadata is available) a tick that
passes the playback guard takes the mismatch branch, but sizeToVideo's
truthiness check leaves the canvas at its old 8×8 size, and the tick still
samples — so the render target's dimensions do not equal the source video's
intrinsic dimensions when sampling begins, and the surface is not resized to
equal them. -/
theorem drawTick_zero_video_dims_counterexample :
    (drawTick ⟨true, false, false, 0, 0, true⟩ ⟨8, 8⟩ fun _ => 0).sampled = true ∧
    (drawTick ⟨true, false, false, 0, 0, true⟩ ⟨8, 8⟩ fun _ => 0).canvas.width = 8 ∧
    (drawTick ⟨true, false, false, 0, 0, true⟩ ⟨8, 8⟩ fun _ => 0).canvas.width ≠
      (VideoState.mk true false false 0 0 true).videoWidth := by decide

/-- Claim C2 (amended): on every draw tick that passes the playback guard,
provided both intrinsic video dimensions are nonzero, the dimension check at
the start of the tick leaves the canvas equal to the video's intrinsic
dimensions exactly (resizing it on mismatch), and sampling then runs over
exactly those dimensions. -/
theorem drawTick_resizes_to_video_dims (v : VideoState) (c : CanvasDims) (frame : ℕ → ℕ)
    (hA : v.attached = true) (hP : v.paused = false) (hE : v.ended = false)
    (hw : v.videoWidth ≠ 0) (hh : v.videoHeight ≠ 0) :
    (drawTick v c frame).canvas = ⟨v.videoWidth, v.videoHeight⟩ ∧
    (drawTick v c frame).sampled = true ∧
    (drawTick v c frame).dots = drawDots grid ⟨v.videoWidth, v.videoHeight, frame⟩ := by
  unfold drawTick
  rw [hA, hP, hE]
  simp only [Bool.not_true, Bool.false_or, Bool.or_self, Bool.false_eq_true, if_false]
  by_cases hmis : c.width ≠ v.videoWidth ∨ c.height ≠ v.videoHeight
  · simp [hmis, sizeToVideo, hw, hh]
  · push_neg at hmis
    obtain ⟨h1, h2⟩ := hmis
    cases c
    simp_all

/-- Witness for C2 (amended) at a concrete state: 4×4 video, 8×8 canvas. -/
theorem drawTick_resizes_to_video_dims_witness :
    (4 : ℕ) ≠ 0 ∧
      (drawTick ⟨true, false, false, 4, 4, true⟩ ⟨8, 8⟩ fun _ => 0).canvas = ⟨4, 4⟩ :=
  ⟨by decide,
   (drawTick_resizes_to_video_dims ⟨true, false, false, 4, 4, true⟩ ⟨8, 8⟩ (fun _ => 0)
      rfl rfl rfl (by decide) (by decide)).1⟩

/-- Claim C3 (code-bug evidence): after the unmount cleanup runs, the video
is paused and detached and the heartbeat, visibility and metadata listeners
are gone, but (a) retry listeners that were attached for a blocked autoplay
are still registered — the cleanup closure never removes kick/onVisibleTry —
and (b) a pending draw callback firing after unmount re-arms the callback
chain (rescheduled = true) even though it samples nothing, so draw keeps
being invoked via requestAnimationFrame indefinitely. -/
theorem cleanup_leaves_rearm_and_retry_listeners :
    (cleanupEffect ⟨⟨true, false, false, 8, 8, true⟩, ⟨true, true, true, true⟩⟩).video.paused
        = true ∧
    (cleanupEffect ⟨⟨true, false, false, 8, 8, true⟩, ⟨true, true, true, true⟩⟩).video.attached
        = false ∧
    (cleanupEffect ⟨⟨true, false, false, 8, 8, true⟩, ⟨true, true, true, true⟩⟩).listeners.heartbeat
        = false ∧
    (cleanupEffect ⟨⟨true, false, false, 8, 8, true⟩, ⟨true, true, true, true⟩⟩).listeners.retryListeners
        = true ∧
    (drawTick (cleanupEffect ⟨⟨true, false, false, 8, 8, true⟩, ⟨true, true, true, true⟩⟩).video
        ⟨8, 8⟩ fun _ => 0).rescheduled = true ∧
    (drawTick (cleanupEffect ⟨⟨true, false, false, 8, 8, true⟩, ⟨true, true, true, true⟩⟩).video
        ⟨8, 8⟩ fun _ => 0).sampled = false := by decide

/-- Claim C4: after a rejected initial play attempt the retry listeners are
attached; while they are attached, each of the four interaction events and
each visibility-becoming-visible event triggers exactly one retried play
attempt, a visibilitychange to hidden triggers none, and the listeners are
removed precisely when the triggered attempt succeeds; once removed, further
events do nothing. -/
theorem blocked_autoplay_retry_protocol (outcome : ℕ → Bool) (h0 : outcome 0 = false) :
    (initRetry outcome).listeners = true ∧
    (∀ s : RetryState, s.listeners = true → ∀ e : UserEvent,
      (e = .visibilitychange false → handleRetryEvent outcome s e = s) ∧
      (e ≠ .visibilitychange false →
        (handleRetryEvent outcome s e).attempts = s.attempts + 1 ∧
        ((handleRetryEvent outcome s e).listeners = false ↔ outcome s.attempts = true))) ∧
    (∀ s : RetryState, s.listeners = false → ∀ e : UserEvent,
      handleRetryEvent outcome s e = s) := by
  refine ⟨by simp [initRetry, h0], ?_, ?_⟩
  · intro s hs e
    constructor
    · rintro rfl
      simp [handleRetryEvent, hs]
    · intro hne
      by_cases ho : outcome s.attempts = true
      · cases e with
        | visibilitychange visible =>
          cases visible with
          | false => exact absurd rfl hne
          | true => simp [handleRetryEvent, hs, kickPlay, ho]
        | pointerdown => simp [handleRetryEvent, hs, kickPlay, ho]
        | keydown => simp [handleRetryEvent, hs, kickPlay, ho]
        | wheel => simp [handleRetryEvent, hs, kickPlay, ho]
        | touchstart => simp [handleRetryEvent, hs, kickPlay, ho]
      · have ho' : outcome s.attempts = false := by
          cases h : outcome s.attempts
          · rfl
          · exact absurd h ho
        cases e with
        | visibilitychange visible =>
          cases visible with
          | false => exact absurd rfl hne
          | true => simp [handleRetryEvent, hs, kickPlay, ho']
        | pointerdown => simp [handleRetryEvent, hs, kickPlay, ho']
        | keydown => simp [handleRetryEvent, hs, kickPlay, ho']
        | wheel => simp [handleRetryEvent, hs, kickPlay, ho']
        | touchstart => simp [handleRetryEvent, hs, kickPlay, ho']
  · intro s hs e
    simp [handleRetryEvent, hs]

/-- Witness for C4: every play attempt fails; after the rejected initial
attempt the retry listeners are attached. -/
theorem blocked_autoplay_retry_protocol_witness :
    (fun _ : ℕ => false) 0 = false ∧ (initRetry fun _ => false).listeners = true :=
  ⟨rfl, (blocked_autoplay_retry_protocol (fun _ => false) rfl).1⟩

/-- Claim C5: under a reduced-motion preference the mount effect creates no
video element, never starts the loop, performs zero draw calls, attaches no
retry listeners, and shows the static ready state immediately — whatever the
hypothetical autoplay outcome would have been. -/
theorem reduced_motion_static_state (autoplayOk : Bool) :
    mountEffect true autoplayOk =
      { ready := true, videoCreated := false, loopStarted := false,
        drawCalls := 0, retryListeners := false } := by
  cases autoplayOk <;> rfl

/-- Claim C6 counterexample: a tick whose video is attached and playing (not
paused, not ended) but not yet producing frames still samples — the source
guard checks only the ref, paused and ended, never frame availability. -/
theorem drawTick_samples_without_frames :
    (drawTick ⟨true, false, false, 8, 8, false⟩ ⟨8, 8⟩ fun _ => 0).sampled = true := by
  decide

/-- Claim C6 (amended): on any tick where the video ref has been cleared or
the video is paused or ended, the tick performs no sampling and no drawing,
leaves the canvas unchanged, and reschedules itself; drawTick is a total
function, so no error is raised and the loop continues. -/
theorem drawTick_skip_guard (v : VideoState) (c : CanvasDims) (frame : ℕ → ℕ)
    (h : v.attached = false ∨ v.paused = true ∨ v.ended = true) :
    drawTick v c frame =
      { canvas := c, sampled := false, dots := [], rescheduled := true } := by
  unfold drawTick
  rcases h with h | h | h <;> simp [h]

/-- Witness for C6 (amended) at a concrete paused state. -/
theorem drawTick_skip_guard_witness :
    ((VideoState.mk true true false 8 8 true).paused = true) ∧
      drawTick ⟨true, true, false, 8, 8, true⟩ ⟨3, 3⟩ (fun _ => 0) =
        { canvas := ⟨3, 3⟩, sampled := false, dots := [], rescheduled := true } :=
  ⟨rfl, drawTick_skip_guard ⟨true, true, false, 8, 8, true⟩ ⟨3, 3⟩ (fun _ => 0)
    (Or.inr (Or.inl rfl))⟩

end Halftone
